import Mathlib

/-!
Verification development for the ResumeApp service: a shallow embedding of the
authentication layer (`services/auth_service.py`), the data-access layer
(`database/crud.py` with the models of `database/models/models.py`) and the
HTTP handlers (`api/routers.py`), together with theorems settling the spec's
claims about ownership-scoped access, token issuance/validation and the
CRUD contracts.
-/

namespace ResumeApp

/-- `User` model from `database/models/models.py`: primary key `id`,
unique `email`, `hashed_password`. -/
structure User where
  id : Nat
  email : String
  hashed_password : String
deriving DecidableEq, Repr

/-- `Resume` model from `database/models/models.py`: primary key `id`,
`title`, `content`, foreign key `user_id` to the owning user. -/
structure Resume where
  id : Nat
  title : String
  content : String
  user_id : Nat
deriving DecidableEq, Repr

/-- The persistent store visible to the DAOs: the `user` and `resume` tables. -/
structure DB where
  users : List User
  resumes : List Resume
deriving DecidableEq, Repr

/-- `UserDAO.get_user_by_email` (`database/crud.py` lines 114-123):
`select(User).where(User.email == email)`, `scalar_one_or_none`.  Under the
email-uniqueness constraint at most one row matches, so the first match of
the filter is the result. -/
def get_user_by_email (db : DB) (email : String) : Option User :=
  db.users.find? (fun u => u.email = email)

/-- `ResumeDAO.get_by_id_for_user` (`database/crud.py` lines 163-175):
`select(Resume).where(Resume.id == res_id, Resume.user_id == user_id)`,
`scalar_one_or_none`. -/
def get_by_id_for_user (db : DB) (res_id : Nat) (user_id : Nat) : Option Resume :=
  db.resumes.find? (fun r => r.id = res_id ∧ r.user_id = user_id)

/-- The body of a `PUT /resume/{res_id}` request (`api/schemas.py`
`ResumeUpdate`): both fields optional, `none` meaning absent or null. -/
structure ResumeUpdate where
  title : Option String
  content : Option String
deriving DecidableEq, Repr

/-- The `setattr` loop of `ResumeDAO.update_for_user` (`database/crud.py`
lines 205-207) applied to the fields the handler passes (only the non-null
entries of the `ResumeUpdate` body; both keys are attributes of `Resume`). -/
def applyUpdate (fields : ResumeUpdate) (r : Resume) : Resume :=
  let r1 := match fields.title with
    | none => r
    | some t => { r with title := t }
  match fields.content with
  | none => r1
  | some c => { r1 with content := c }

/-- `ResumeDAO.update_for_user` (`database/crud.py` lines 188-208): select the
row by `(id, user_id)` jointly; if absent return `None` leaving the store
unchanged, else set the supplied attributes on that row (identified by its
primary key) and return the updated object.  Returns the result together with
the store after the transaction commits. -/
def update_for_user (db : DB) (res_id : Nat) (user_id : Nat)
    (fields : ResumeUpdate) : Option Resume × DB :=
  match get_by_id_for_user db res_id user_id with
  | none => (none, db)
  | some obj =>
    let obj' := applyUpdate fields obj
    (some obj',
     { db with resumes := db.resumes.map (fun r => if r.id = obj.id then obj' else r) })

/-- `ResumeDAO.delete_for_user` (`database/crud.py` lines 210-227): select the
row by `(id, user_id)` jointly; if absent return `None` leaving the store
unchanged, else delete that row (by its primary key) and return it. -/
def delete_for_user (db : DB) (res_id : Nat) (user_id : Nat) : Option Resume × DB :=
  match get_by_id_for_user db res_id user_id with
  | none => (none, db)
  | some obj =>
    (some obj, { db with resumes := db.resumes.filter (fun r => r.id ≠ obj.id) })

/-- Autoincrement of the `user.id` primary key: one more than the largest id
in the table. -/
def next_user_id (db : DB) : Nat :=
  (db.users.map (fun u => u.id)).foldr max 0 + 1

/-- `UserDAO.create_user` (`database/crud.py` lines 125-133) via
`BaseDAO.add`: insert a new row with an autoincremented primary key. -/
def create_user (db : DB) (email : String) (hashed_password : String) : User × DB :=
  let u : User := ⟨next_user_id db, email, hashed_password⟩
  (u, { db with users := db.users ++ [u] })

/-- The claims of a JWT as built by `create_access_token`
(`services/auth_service.py` lines 47-51): `sub`, `iat`, `exp` (Unix seconds;
`sub` optional since an attacker-supplied token may omit it). -/
structure JwtPayload where
  sub : Option String
  iat : Int
  exp : Int
deriving DecidableEq, Repr

/-- Modelled from the spec: the MAC produced by the external `jose` library's
signing step, "a deterministic function of {subject, issued_at, expires_at,
secret}".  Modelled symbolically: the signature value records exactly the
signed claims and the key, so verification (recompute and compare) succeeds
iff the claims are intact and the key matches. -/
structure Sig where
  claims : JwtPayload
  key : String
deriving DecidableEq, Repr

/-- Modelled from the spec: signing a payload with the process secret. -/
def sign (p : JwtPayload) (secret : String) : Sig := ⟨p, secret⟩

/-- A token string on the wire: either a structurally well-formed signed token
or an arbitrary malformed string. -/
inductive TokenString where
  | signed (payload : JwtPayload) (sig : Sig)
  | malformed (raw : String)
deriving DecidableEq, Repr

/-- Modelled from the spec: `jwt.encode(payload, secret, algorithm)` of the
external `jose` library — serialize the claims and append their MAC. -/
def jwt_encode (p : JwtPayload) (secret : String) : TokenString :=
  .signed p (sign p secret)

/-- Modelled from the spec: `jwt.decode(token, secret, algorithms)` of the
external `jose` library, which is absent from the repository — "parses the
token, verifies the signature against the secret (constant algorithm,
configured once at process start), checks expires_at > now"; any failure
(malformed structure, signature mismatch, expired) raises `JWTError`,
modelled as `none`. -/
def jwt_decode (tok : TokenString) (secret : String) (now : Int) : Option JwtPayload :=
  match tok with
  | .malformed _ => none
  | .signed p sig =>
    if sig = sign p secret then
      if p.exp > now then some p else none
    else none

/-- The `Token` response schema (`api/schemas.py`): the encoded access token,
its type and its expiry instant. -/
structure Token where
  access_token : TokenString
  token_type : String
  expires_at : Int
deriving DecidableEq, Repr

/-- `create_access_token` (`services/auth_service.py` lines 37-53): capture
`now`, set `exp = now + expires_minutes` minutes, sign `{sub, iat, exp}` with
the process secret and return the `Token` object.  Time is in integral Unix
seconds; the Python truncations `int(now.timestamp())` and
`int(expire.timestamp())` differ by exactly `60 * expires_minutes`. -/
def create_access_token (secret : String) (sub : String)
    (expires_minutes : Int) (now : Int) : Token :=
  let expire := now + 60 * expires_minutes
  let payload : JwtPayload := { sub := some sub, iat := now, exp := expire }
  { access_token := jwt_encode payload secret
    token_type := "bearer"
    expires_at := expire }

/-- The error object FastAPI serializes from a raised `HTTPException`:
status code plus detail string, both client-observable. -/
structure HTTPException where
  status : Nat
  detail : String
deriving DecidableEq, Repr

/-- The token-validation portion of `get_current_user`
(`services/auth_service.py` lines 68-72): decode (signature and expiry
checked by `jwt.decode`), then read the `sub` claim, rejecting when it is
absent or falsy (the empty string). -/
def token_validate (tok : TokenString) (secret : String) (now : Int) : Option String :=
  match jwt_decode tok secret now with
  | none => none
  | some p =>
    match p.sub with
    | none => none
    | some s => if s = "" then none else some s

/-- `get_current_user` (`services/auth_service.py` lines 56-78): reject a
missing token; decode the token (`JWTError` collapses malformed, bad
signature and expired into one 401); reject a missing/falsy `sub` claim;
resolve the subject in the user table, rejecting unknown subjects; otherwise
return the user. -/
def get_current_user (secret : String) (now : Int) (db : DB)
    (token : Option TokenString) : Except HTTPException User :=
  match token with
  | none => .error ⟨401, "Missing token"⟩
  | some tok =>
    match jwt_decode tok secret now with
    | none => .error ⟨401, "Invalid or expired token"⟩
    | some payload =>
      match payload.sub with
      | none => .error ⟨401, "Invalid token"⟩
      | some s =>
        if s = "" then .error ⟨401, "Invalid token"⟩
        else
          match get_user_by_email db s with
          | none => .error ⟨401, "User not found"⟩
          | some user => .ok user

/-- The `ResumeOut` response schema (`api/schemas.py`): the fields of a resume
exposed to the client (`response_model` drops `user_id`). -/
structure ResumeOut where
  id : Nat
  title : String
  content : String
deriving DecidableEq, Repr

/-- The body of `POST /api/user/registration` (`api/schemas.py`
`UserRegistration`). -/
structure UserRegistration where
  email : String
  password : String
deriving DecidableEq, Repr

/-- The body of `POST /api/user/login` (`api/schemas.py` `UserLogin`). -/
structure UserLogin where
  email : String
  password : String
deriving DecidableEq, Repr

/-- The `register` handler (`api/routers.py` lines 21-38): reject with 400
when the email is already taken, otherwise hash the password (the external
bcrypt hasher is an arbitrary salted function, passed as `hashF`), create the
user and issue a token.  Returns the response together with the store. -/
def register (hashF : String → String) (secret : String)
    (expires_minutes : Int) (now : Int) (db : DB)
    (body : UserRegistration) : Except HTTPException Token × DB :=
  if (get_user_by_email db body.email).isSome then
    (.error ⟨400, "Пользователь с таким email уже существует"⟩, db)
  else
    let hashed := hashF body.password
    let db' := (create_user db body.email hashed).2
    (.ok (create_access_token secret body.email expires_minutes now), db')

/-- The `login` handler (`api/routers.py` lines 41-57): look the user up by
email and verify the password (external bcrypt verification passed as
`verifyF`); the same 401 is raised whether the user is absent or the
password mismatches. -/
def login (verifyF : String → String → Bool) (secret : String)
    (expires_minutes : Int) (now : Int) (db : DB)
    (body : UserLogin) : Except HTTPException Token :=
  match get_user_by_email db body.email with
  | none => .error ⟨401, "Неверные учетные данные"⟩
  | some user =>
    if verifyF body.password user.hashed_password then
      .ok (create_access_token secret body.email expires_minutes now)
    else
      .error ⟨401, "Неверные учетные данные"⟩

/-- The `GET /resume/{res_id}` handler (`api/routers.py` lines 94-107):
ownership-scoped lookup, 404 when no row matches. -/
def get_resume (db : DB) (res_id : Nat) (current_user_id : Nat) :
    Except HTTPException ResumeOut :=
  match get_by_id_for_user db res_id current_user_id with
  | none => .error ⟨404, "Resume not found"⟩
  | some item => .ok ⟨item.id, item.title, item.content⟩

/-- The `GET /resume/{res_id}/improve` handler (`api/routers.py` lines
110-126): ownership-scoped lookup, 404 when no row matches, otherwise the
row's fields with `" [Improved]"` appended to `content`.  No write is
issued, so the store is returned unchanged on every path.  Modelled from the
spec for the dict-unpacking step: `database/models/base.py` (which would make
the ORM row mapping-unpackable for `{**item, ...}`) is absent from the
repository sources; per the spec the operation "returns a mutated view
without persisting it", i.e. a field-wise copy of the row with the modified
`content`. -/
def improve_resume (db : DB) (res_id : Nat) (current_user_id : Nat) :
    Except HTTPException ResumeOut × DB :=
  match get_by_id_for_user db res_id current_user_id with
  | none => (.error ⟨404, "Resume not found"⟩, db)
  | some item => (.ok ⟨item.id, item.title, item.content ++ " [Improved]"⟩, db)

/-- The `PUT /resume/{res_id}` handler (`api/routers.py` lines 129-150):
drop the null fields of the body; 400 before any storage access when none
remain; otherwise the ownership-scoped update, 404 when no row matches. -/
def update_resume (db : DB) (res_id : Nat) (body : ResumeUpdate)
    (current_user_id : Nat) : Except HTTPException ResumeOut × DB :=
  if body.title = none ∧ body.content = none then
    (.error ⟨400, "Nothing to update"⟩, db)
  else
    match update_for_user db res_id current_user_id body with
    | (none, db') => (.error ⟨404, "Resume not found"⟩, db')
    | (some item, db') => (.ok ⟨item.id, item.title, item.content⟩, db')

/-- The `DELETE /resume/{res_id}` handler (`api/routers.py` lines 153-166):
ownership-scoped delete, 404 when no row matches, otherwise the deleted row
as confirmation. -/
def delete_resume (db : DB) (res_id : Nat) (current_user_id : Nat) :
    Except HTTPException ResumeOut × DB :=
  match delete_for_user db res_id current_user_id with
  | (none, db') => (.error ⟨404, "Resume not found"⟩, db')
  | (some item, db') => (.ok ⟨item.id, item.title, item.content⟩, db')

/-- The primary-key constraint on the `resume` table: ids are pairwise
distinct. -/
abbrev resumeIdsNodup (db : DB) : Prop :=
  (db.resumes.map (fun r => r.id)).Nodup

/-- A sample store: two users, each owning one resume. -/
def sampleDB : DB :=
  { users := [⟨1, "a@x.com", "h1"⟩, ⟨2, "b@x.com", "h2"⟩],
    resumes := [⟨1, "R1", "C1", 1⟩, ⟨2, "R2", "C2", 2⟩] }

/-- With unique resume ids, the compound-filtered lookup for the owner of a
stored resume returns exactly that resume. -/
theorem get_by_id_for_user_owner {d : DB} {r : Resume} {u : Nat}
    (hnd : resumeIdsNodup d) (hr : r ∈ d.resumes) (ho : r.user_id = u) :
    get_by_id_for_user d r.id u = some r := by
  rcases h : get_by_id_for_user d r.id u with _ | y
  · exfalso
    rw [get_by_id_for_user, List.find?_eq_none] at h
    exact absurd ho (by simpa using h r hr)
  · rw [get_by_id_for_user] at h
    have hpy := List.find?_some h
    have hmy := List.mem_of_find?_eq_some h
    simp only [decide_eq_true_eq] at hpy
    exact congrArg some (List.inj_on_of_nodup_map hnd hmy hr hpy.1)

/-- With unique resume ids, the compound-filtered lookup for a stored resume
under any identity other than its owner finds nothing. -/
theorem get_by_id_for_user_other {d : DB} {r : Resume} {a b : Nat}
    (hnd : resumeIdsNodup d) (hr : r ∈ d.resumes) (hA : r.user_id = a)
    (hB : b ≠ a) :
    get_by_id_for_user d r.id b = none := by
  rw [get_by_id_for_user, List.find?_eq_none]
  intro x hx
  simp only [decide_eq_true_eq, not_and]
  intro hid huid
  have hxr : x = r := List.inj_on_of_nodup_map hnd hx hr hid
  exact hB (by rw [← huid, hxr, hA])

/-- The `setattr` loop writes exactly the supplied fields and touches nothing
else: the result keeps `id` and `user_id`, and each of `title`/`content`
either takes the supplied value or keeps the stored one. -/
theorem applyUpdate_eq (b : ResumeUpdate) (r : Resume) :
    applyUpdate b r =
      ⟨r.id, b.title.getD r.title, b.content.getD r.content, r.user_id⟩ := by
  rcases r with ⟨i, t, c, u⟩
  rcases b with ⟨_ | t', _ | c'⟩ <;> rfl

/-- Decoding a token signed with the matching secret at or after its expiry
instant fails: the expiry check `exp > now` is exclusive. -/
theorem jwt_decode_expired (p : JwtPayload) (k : String) (n : Int)
    (h : p.exp ≤ n) : jwt_decode (jwt_encode p k) k n = none := by
  have hc : ¬ (p.exp > n) := by omega
  simp [jwt_encode, jwt_decode, hc]

/-- Decoding a token signed with the matching secret strictly before its
expiry instant recovers the signed claims. -/
theorem jwt_decode_fresh (p : JwtPayload) (k : String) (n : Int)
    (h : n < p.exp) : jwt_decode (jwt_encode p k) k n = some p := by
  have hc : p.exp > n := by omega
  simp [jwt_encode, jwt_decode, hc]

/-- C1: for every resume `r` owned by user `a` and every other user `b`
(`b ≠ a`), the ownership-scoped lookup `get_by_id_for_user r.id b` returns no
resume, and the `GET /resume/{id}` handler invoked with `b`'s identity
reports the 404 not-found error (never `r`, never a forbidden outcome). -/
theorem claim_C1_cross_user_lookup_not_found (d : DB) (r : Resume) (a b : Nat)
    (hnd : resumeIdsNodup d) (hr : r ∈ d.resumes) (hA : r.user_id = a)
    (hB : b ≠ a) :
    get_by_id_for_user d r.id b = none ∧
    get_resume d r.id b = .error ⟨404, "Resume not found"⟩ := by
  refine ⟨get_by_id_for_user_other hnd hr hA hB, ?_⟩
  rw [get_resume, get_by_id_for_user_other hnd hr hA hB]

/-- C1 witness: in the sample store, resume 1 belongs to user 1, and user 2's
lookup and `GET /resume/1` both report not-found. -/
theorem claim_C1_witness :
    get_by_id_for_user sampleDB 1 2 = none ∧
    get_resume sampleDB 1 2 = .error ⟨404, "Resume not found"⟩ :=
  claim_C1_cross_user_lookup_not_found sampleDB ⟨1, "R1", "C1", 1⟩ 1 2
    (by decide) (by decide) rfl (by decide)

/-- C5: for a resume `r` owned by the caller, `GET /resume/{id}/improve`
returns `r`'s fields with `" [Improved]"` appended to `content`, and the
store is completely unchanged — nothing is persisted. -/
theorem claim_C5_improve_returns_view_no_persist (d : DB) (r : Resume) (u : Nat)
    (hnd : resumeIdsNodup d) (hr : r ∈ d.resumes) (ho : r.user_id = u) :
    improve_resume d r.id u =
      (.ok ⟨r.id, r.title, r.content ++ " [Improved]"⟩, d) := by
  rw [improve_resume, get_by_id_for_user_owner hnd hr ho]

/-- C5 witness: improving resume 1 as its owner yields the suffixed content
and leaves the sample store unchanged. -/
theorem claim_C5_witness :
    improve_resume sampleDB 1 1 =
      (.ok ⟨1, "R1", "C1" ++ " [Improved]"⟩, sampleDB) :=
  claim_C5_improve_returns_view_no_persist sampleDB ⟨1, "R1", "C1", 1⟩ 1
    (by decide) (by decide) rfl

/-- C6: an update request whose body has zero effective fields (both `title`
and `content` absent or null) is rejected with the 400 error before any
storage access, and the store is unchanged. -/
theorem claim_C6_empty_update_rejected (d : DB) (i u : Nat) (b : ResumeUpdate)
    (ht : b.title = none) (hc : b.content = none) :
    update_resume d i b u = (.error ⟨400, "Nothing to update"⟩, d) := by
  rw [update_resume, if_pos ⟨ht, hc⟩]

/-- C6 witness: the all-null update body is rejected with 400 on the sample
store, which is returned unchanged. -/
theorem claim_C6_witness :
    update_resume sampleDB 1 ⟨none, none⟩ 1 =
      (.error ⟨400, "Nothing to update"⟩, sampleDB) :=
  claim_C6_empty_update_rejected sampleDB 1 1 ⟨none, none⟩ rfl rfl

/-- C7: a successful owner update changes exactly the non-null supplied
fields to the supplied values; `id`, `user_id` and every unsupplied field of
that resume keep their stored values, every other resume is untouched, and
the user table is untouched. -/
theorem claim_C7_update_exact_frame (d : DB) (r : Resume) (u : Nat)
    (b : ResumeUpdate) (hnd : resumeIdsNodup d) (hr : r ∈ d.resumes)
    (ho : r.user_id = u) (hb : ¬(b.title = none ∧ b.content = none)) :
    update_resume d r.id b u =
      (.ok ⟨r.id, b.title.getD r.title, b.content.getD r.content⟩,
       { d with resumes := d.resumes.map (fun x =>
           if x.id = r.id then
             ⟨r.id, b.title.getD r.title, b.content.getD r.content, r.user_id⟩
           else x) }) := by
  rw [update_resume, if_neg hb, update_for_user, get_by_id_for_user_owner hnd hr ho]
  simp only [applyUpdate_eq]

/-- C7 witness: updating only the title of resume 1 as its owner replaces the
title, keeps the content, owner and id, and leaves resume 2 untouched. -/
theorem claim_C7_witness :
    update_resume sampleDB 1 ⟨some "T2", none⟩ 1 =
      (.ok ⟨1, (some "T2").getD "R1", (none : Option String).getD "C1"⟩,
       { sampleDB with resumes := sampleDB.resumes.map (fun x =>
           if x.id = 1 then
             ⟨1, (some "T2").getD "R1", (none : Option String).getD "C1", 1⟩
           else x) }) :=
  claim_C7_update_exact_frame sampleDB ⟨1, "R1", "C1", 1⟩ 1 ⟨some "T2", none⟩
    (by decide) (by decide) rfl (by decide)

/-- C8: registering an email that already has a user fails with the 400
duplicate error and leaves the store — in particular the existing credential
— completely unchanged; no user is created. -/
theorem claim_C8_duplicate_registration (f : String → String) (k : String)
    (m n : Int) (d : DB) (e p : String) (u : User)
    (h : get_user_by_email d e = some u) :
    register f k m n d ⟨e, p⟩ =
      (.error ⟨400, "Пользователь с таким email уже существует"⟩, d) := by
  rw [register, if_pos (by rw [h]; rfl)]

/-- C8 witness: re-registering `a@x.com` on the sample store fails with the
duplicate error and the store is unchanged. -/
theorem claim_C8_witness :
    register (fun s => s) "k" 30 0 sampleDB ⟨"a@x.com", "password123"⟩ =
      (.error ⟨400, "Пользователь с таким email уже существует"⟩, sampleDB) :=
  claim_C8_duplicate_registration (fun s => s) "k" 30 0 sampleDB
    "a@x.com" "password123" ⟨1, "a@x.com", "h1"⟩ rfl

/-- C9: a login with an unknown email and a login with a known email but a
password that fails verification produce the identical client-observable
response: the same 401 error with the same message. -/
theorem claim_C9_login_indistinguishable (v : String → String → Bool)
    (k : String) (m n : Int) (d : DB) (x y : UserLogin) (u : User)
    (hx : get_user_by_email d x.email = none)
    (hy : get_user_by_email d y.email = some u)
    (hv : v y.password u.hashed_password = false) :
    login v k m n d x = .error ⟨401, "Неверные учетные данные"⟩ ∧
    login v k m n d y = login v k m n d x := by
  have h1 : login v k m n d x = .error ⟨401, "Неверные учетные данные"⟩ := by
    rw [login, hx]
  have h2 : login v k m n d y = .error ⟨401, "Неверные учетные данные"⟩ := by
    rw [login, hy]
    simp [hv]
  exact ⟨h1, h2.trans h1.symm⟩

/-- C9 witness: on the sample store, an unknown email and a wrong password
for `a@x.com` both yield the same 401 response. -/
theorem claim_C9_witness :
    login (fun _ _ => false) "k" 30 0 sampleDB ⟨"zz@x.com", "p"⟩ =
      .error ⟨401, "Неверные учетные данные"⟩ ∧
    login (fun _ _ => false) "k" 30 0 sampleDB ⟨"a@x.com", "wrong"⟩ =
      login (fun _ _ => false) "k" 30 0 sampleDB ⟨"zz@x.com", "p"⟩ :=
  claim_C9_login_indistinguishable (fun _ _ => false) "k" 30 0 sampleDB
    ⟨"zz@x.com", "p"⟩ ⟨"a@x.com", "wrong"⟩ ⟨1, "a@x.com", "h1"⟩ rfl rfl rfl

/-- C10: a successful owner delete returns the deleted resume's id, title and
content as confirmation and removes exactly the rows carrying that id (under
unique ids, exactly that resume): every other resume and the user table are
unchanged, and the subsequent owner lookup of the deleted id finds nothing. -/
theorem claim_C10_delete_exact (d : DB) (r : Resume) (u : Nat)
    (hnd : resumeIdsNodup d) (hr : r ∈ d.resumes) (ho : r.user_id = u) :
    delete_resume d r.id u =
      (.ok ⟨r.id, r.title, r.content⟩,
       { d with resumes := d.resumes.filter (fun x => x.id ≠ r.id) }) ∧
    get_by_id_for_user
      { d with resumes := d.resumes.filter (fun x => x.id ≠ r.id) } r.id u =
      none := by
  constructor
  · rw [delete_resume, delete_for_user, get_by_id_for_user_owner hnd hr ho]
  · rw [get_by_id_for_user, List.find?_eq_none]
    intro x hx
    have hxid : x.id ≠ r.id := by simpa using (List.mem_filter.mp hx).2
    simp [hxid]

/-- C10 witness: deleting resume 1 as user 1 returns its data, removes it
from the sample store, leaves resume 2 in place, and the follow-up lookup
finds nothing. -/
theorem claim_C10_witness :
    delete_resume sampleDB 1 1 =
      (.ok ⟨1, "R1", "C1"⟩,
       { sampleDB with resumes := sampleDB.resumes.filter (fun x => x.id ≠ 1) }) ∧
    get_by_id_for_user
      { sampleDB with resumes := sampleDB.resumes.filter (fun x => x.id ≠ 1) } 1 1 =
      none :=
  claim_C10_delete_exact sampleDB ⟨1, "R1", "C1", 1⟩ 1 (by decide) (by decide) rfl

/-- C2: a token issued by `create_access_token` and validated at any instant
at or after its `expires_at` (expiry is exclusive: exactly-at is already
rejected) is rejected by `get_current_user` with the 401 authentication
failure, for every user store. -/
theorem claim_C2_expired_token_rejected (k s : String) (m t n : Int) (d : DB)
    (h : (create_access_token k s m t).expires_at ≤ n) :
    get_current_user k n d (some (create_access_token k s m t).access_token) =
      .error ⟨401, "Invalid or expired token"⟩ := by
  simp only [create_access_token] at h
  have hd : jwt_decode (jwt_encode ⟨some s, t, t + 60 * m⟩ k) k n = none :=
    jwt_decode_expired ⟨some s, t, t + 60 * m⟩ k n h
  simp only [create_access_token, get_current_user, hd]

/-- C2 witness: a token issued at time 0 with a 30-minute ttl expires at
1800, and validation exactly at 1800 is rejected with the 401 failure. -/
theorem claim_C2_witness :
    (create_access_token "k" "a@x.com" 30 0).expires_at ≤ 1800 ∧
    get_current_user "k" 1800 ⟨[], []⟩
        (some (create_access_token "k" "a@x.com" 30 0).access_token) =
      .error ⟨401, "Invalid or expired token"⟩ :=
  ⟨by decide, claim_C2_expired_token_rejected "k" "a@x.com" 30 0 1800 ⟨[], []⟩ (by decide)⟩

/-- C3 counterexample: two authentication failures with different causes —
a signed, unexpired token missing its `sub` claim, and an expired token —
produce different client-observable responses: both 401, but with the
distinct details `"Invalid token"` and `"Invalid or expired token"`. -/
theorem claim_C3_counterexample :
    get_current_user "k" 0 ⟨[], []⟩
        (some (.signed ⟨none, 0, 100⟩ (sign ⟨none, 0, 100⟩ "k"))) =
      .error ⟨401, "Invalid token"⟩ ∧
    get_current_user "k" 0 ⟨[], []⟩
        (some (create_access_token "k" "a@x.com" 1 (-60)).access_token) =
      .error ⟨401, "Invalid or expired token"⟩ ∧
    (⟨401, "Invalid token"⟩ : HTTPException) ≠ ⟨401, "Invalid or expired token"⟩ := by
  exact ⟨rfl, rfl, by decide⟩

/-- C3 (amended): every authentication failure of `get_current_user` —
missing token, malformed structure, signature mismatch, missing subject
claim, expired token, or unknown subject — carries the same 401 status; the
collapsed `JWTError` category (malformed / bad signature / expired) shares
one response, but the detail string differs between categories, so the full
response is not identical across all failure causes. -/
theorem claim_C3_all_failures_401 (k : String) (n : Int) (d : DB)
    (t : Option TokenString) (e : HTTPException)
    (h : get_current_user k n d t = .error e) : e.status = 401 := by
  unfold get_current_user at h
  repeat' split at h
  all_goals first
    | exact Except.noConfusion h
    | (injection h with h1; subst h1; rfl)

/-- C3 witness: the missing-token failure carries status 401. -/
theorem claim_C3_witness :
    HTTPException.status ⟨401, "Missing token"⟩ = 401 ∧
    get_current_user "k" 0 ⟨[], []⟩ none = .error ⟨401, "Missing token"⟩ :=
  ⟨claim_C3_all_failures_401 "k" 0 ⟨[], []⟩ none ⟨401, "Missing token"⟩ rfl, rfl⟩

/-- C4 counterexample: for the subject `""` and the positive ttl 30, the
token issued by `create_access_token` is rejected when validated immediately
(same secret, same instant): `get_current_user` treats the falsy `sub` claim
as missing, so validation does not yield the subject. -/
theorem claim_C4_counterexample :
    (0 : Int) < 30 ∧
    token_validate (create_access_token "k" "" 30 0).access_token "k" 0 = none := by
  exact ⟨by decide, rfl⟩

/-- C4 (amended): for every non-empty subject `s` and every ttl strictly
greater than zero, validating the token produced by `create_access_token`
immediately after issuance, with the same process secret, succeeds and
yields `s`. -/
theorem claim_C4_issue_validate_roundtrip (k s : String) (m n : Int)
    (hs : s ≠ "") (hm : 0 < m) :
    token_validate (create_access_token k s m n).access_token k n = some s := by
  have hd : jwt_decode (jwt_encode ⟨some s, n, n + 60 * m⟩ k) k n =
      some ⟨some s, n, n + 60 * m⟩ :=
    jwt_decode_fresh ⟨some s, n, n + 60 * m⟩ k n (by show n < n + 60 * m; omega)
  simp only [create_access_token, token_validate, hd]
  simp [hs]

/-- C4 witness: the token issued for `a@x.com` with a 30-minute ttl validates
to `a@x.com` immediately after issuance. -/
theorem claim_C4_witness :
    token_validate (create_access_token "k" "a@x.com" 30 0).access_token "k" 0 =
      some "a@x.com" :=
  claim_C4_issue_validate_roundtrip "k" "a@x.com" 30 0 (by decide) (by decide)

end ResumeApp
